import Mathlib

/-!
Shallow embedding of `jupyter2repo/setup.py`, an installation-time settings
writer.  The script resolves the host configuration root, joins a fixed
relative path, creates missing directories (`os.makedirs(..., exist_ok=True)`),
reads two environment variables and writes a two-key JSON document with
`json.dump(..., indent=2)`.

The embedding models:
  * `os.path.join` / `os.path.dirname` for POSIX paths (faithful to the
    CPython `posixpath` implementations restricted to the single-character
    separator used by the script);
  * the Python `json` serializer at the fragment the script exercises
    (a flat object whose values are strings or `None`, `indent=2`,
    default separators, `ensure_ascii=True`);
  * the filesystem as a set of directories plus an association list of
    file contents, with an oracle describing which underlying OS calls
    fail (permission denial, disk full, ...) so that error propagation
    is observable;
  * the run of the script as an `Except`-valued state transformer that
    also returns the trace of filesystem events, in order.
-/

/-- The value space of the settings document: each entry is a JSON string
or JSON `null` (from `os.environ.get` returning `None`). -/
inductive JVal where
  | null : JVal
  | str : String → JVal
deriving DecidableEq, Repr

/-- Conversion from `os.environ.get`'s result to the JSON value stored in
the document: `None` becomes JSON `null`, a string stays a string. -/
def jOfOpt : Option String → JVal
  | none => JVal.null
  | some s => JVal.str s

/-- Source line `PLUGIN_ID = "jupyter2repo"`. -/
def PLUGIN_ID : String := "jupyter2repo"

/-- Test whether a string starts with the POSIX separator, as
`b.startswith(sep)` does in `posixpath.join` for `sep = "/"`. -/
def startsWithSlash (s : String) : Bool :=
  s.data.head? = some '/'

/-- Test whether a string ends with the POSIX separator, as
`path.endswith(sep)` does in `posixpath.join` for `sep = "/"`. -/
def endsWithSlash (s : String) : Bool :=
  s.data.getLast? = some '/'

/-- One step of `posixpath.join`: absolute second component resets the
path; otherwise the separator is inserted unless the accumulated path is
empty or already ends with the separator. -/
def joinTwo (a b : String) : String :=
  if startsWithSlash b then b
  else if a = "" || endsWithSlash a then a ++ b
  else a ++ "/" ++ b

/-- `posixpath.join(a, *ps)`: left fold of `joinTwo`. -/
def osPathJoin (a : String) (ps : List String) : String :=
  ps.foldl joinTwo a

/-- Source line: `settings_path = os.path.join(config_dir, "lab",
"user-settings", PLUGIN_ID, "plugin.json")`. -/
def settings_path (config_dir : String) : String :=
  osPathJoin config_dir ["lab", "user-settings", PLUGIN_ID, "plugin.json"]

/-- Core of `posixpath.dirname` on the character list: take everything up
to and including the last separator, then (unless the head is empty or all
separators) strip trailing separators. -/
def dirnameList (cs : List Char) : List Char :=
  let head := (cs.reverse.dropWhile (fun c => c ≠ '/')).reverse
  if head.isEmpty || head.all (fun c => c = '/') then head
  else (head.reverse.dropWhile (fun c => c = '/')).reverse

/-- `os.path.dirname` for POSIX paths. -/
def dirname (s : String) : String :=
  String.mk (dirnameList s.data)

/-- Source line: `settings_data = {"GH_APP_ID": os.environ.get("GH_APP_ID"),
"GH_APP_URL": os.environ.get("GH_APP_URL")}` — an insertion-ordered
association list, as a Python `dict` is. -/
def settings_data (env : String → Option String) : List (String × JVal) :=
  [("GH_APP_ID", jOfOpt (env "GH_APP_ID")),
   ("GH_APP_URL", jOfOpt (env "GH_APP_URL"))]

/-- Lowercase hexadecimal digit, as used by the Python `json` encoder's
`\uXXXX` escapes. -/
def hexDigit (n : Nat) : Char :=
  if n < 10 then Char.ofNat (48 + n) else Char.ofNat (87 + n)

/-- Four-digit lowercase hexadecimal rendering of a code unit. -/
def hex4 (n : Nat) : String :=
  String.mk [hexDigit (n / 4096 % 16), hexDigit (n / 256 % 16),
             hexDigit (n / 16 % 16), hexDigit (n % 16)]

/-- Escape one character the way the Python `json` encoder does with
`ensure_ascii=True`: the short escapes for backslash, quote and the five
control characters with names, printable ASCII unchanged, everything else
as `\uXXXX` (surrogate pairs beyond the BMP). -/
def escapeChar (c : Char) : String :=
  if c = '\\' then "\\\\"
  else if c = '"' then "\\\""
  else if c = Char.ofNat 8 then "\\b"
  else if c = Char.ofNat 12 then "\\f"
  else if c = '\n' then "\\n"
  else if c = '\r' then "\\r"
  else if c = '\t' then "\\t"
  else if 32 ≤ c.toNat && c.toNat ≤ 126 then String.mk [c]
  else if c.toNat < 65536 then "\\u" ++ hex4 c.toNat
  else "\\u" ++ hex4 (55296 + (c.toNat - 65536) / 1024) ++
       "\\u" ++ hex4 (56320 + (c.toNat - 65536) % 1024)

/-- JSON string literal: quoted, characters escaped. -/
def jsonStringLit (s : String) : String :=
  "\"" ++ String.join (s.data.map escapeChar) ++ "\""

/-- Serialization of one value. -/
def serializeJVal : JVal → String
  | JVal.null => "null"
  | JVal.str s => jsonStringLit s

/-- Serialization of a flat JSON object by `json.dump(obj, f, indent=2)`:
with a non-`None` indent the item separator is `",\n"`, each line of the
single nesting level is indented by two spaces, and the closing brace sits
on its own unindented line.  No trailing newline is written. -/
def serializeObj (items : List (String × JVal)) : String :=
  match items with
  | [] => "\x7b\x7d"
  | _ =>
    "\x7b\n" ++
    String.intercalate ",\n"
      (items.map (fun kv => "  " ++ jsonStringLit kv.1 ++ ": " ++ serializeJVal kv.2)) ++
    "\n\x7d"

/-- Filesystem model: the set of existing directories and the contents of
existing files. -/
structure FS where
  dirs : List String
  files : List (String × String)
deriving DecidableEq, Repr

/-- Update (or create) the file at `p` with content `c`. -/
def setFile (files : List (String × String)) (p c : String) : List (String × String) :=
  match files with
  | [] => [(p, c)]
  | (q, d) :: rest => if q = p then (p, c) :: rest else (q, d) :: setFile rest p c

/-- Read the content of the file at `p`, if present. -/
def getFile (files : List (String × String)) (p : String) : Option String :=
  match files with
  | [] => none
  | (q, d) :: rest => if q = p then some d else getFile rest p

/-- Fuel-indexed ancestor chain of a path: the path, its `dirname`, the
`dirname` of that, ... stopping at a fixpoint or the empty string. -/
def ancestorsAux : Nat → String → List String
  | 0, _ => []
  | n + 1, p =>
    p :: (if dirname p = p || dirname p = "" then [] else ancestorsAux n (dirname p))

/-- All directories `os.makedirs` ensures exist for target `p`. -/
def ancestors (p : String) : List String :=
  ancestorsAux (p.length + 1) p

/-- Insert each listed directory that is not already present. -/
def insertAll (ds : List String) (xs : List String) : List String :=
  xs.foldl (fun acc x => if x ∈ acc then acc else acc ++ [x]) ds

/-- `os.makedirs(p, exist_ok=ok)`: ensures the whole ancestor chain exists;
with `exist_ok=False` it raises `FileExistsError` when the target directory
already exists, with `exist_ok=True` it succeeds silently. -/
def makedirs (exist_ok : Bool) (p : String) (fs : FS) : Except String FS :=
  if p ∈ fs.dirs && !exist_ok then Except.error "FileExistsError"
  else Except.ok { fs with dirs := insertAll fs.dirs (ancestors p) }

/-- Which underlying OS calls succeed in this run.  A `false` component
models an environmental failure (permission denied, disk full, read-only
filesystem) of the corresponding call. -/
structure Oracle where
  makedirsOk : Bool
  writeOk : Bool
deriving DecidableEq, Repr

/-- Observable filesystem events of a run, in order. -/
inductive Ev where
  | mkdirs (path : String)
  | fileWrite (path : String) (content : String)
deriving DecidableEq, Repr

/-- The module body of `setup.py` after the path computations: run
`os.makedirs(os.path.dirname(settings_path), exist_ok=True)`, then
`open(settings_path, "w")` followed by `json.dump(settings_data, f,
indent=2)`.  Errors of the underlying OS calls are modelled by the oracle
and are not caught anywhere; the returned trace lists the filesystem
events in the order they happen. -/
def run (o : Oracle) (config_dir : String) (env : String → Option String)
    (fs : FS) : Except String (FS × List Ev) :=
  let sp := settings_path config_dir
  let d := dirname sp
  if o.makedirsOk = false then Except.error "OSError: makedirs"
  else
    match makedirs true d fs with
    | Except.error e => Except.error e
    | Except.ok fs1 =>
      if o.writeOk = false then Except.error "OSError: open"
      else
        let content := serializeObj (settings_data env)
        Except.ok ({ fs1 with files := setFile fs1.files sp content },
                   [Ev.mkdirs d, Ev.fileWrite sp content])

/-- Directory set after the `makedirs` step for configuration root `c`. -/
def afterDirs (c : String) (fs : FS) : List String :=
  insertAll fs.dirs (ancestors (dirname (settings_path c)))

/-- Filesystem after a successful run. -/
def runFS (c : String) (env : String → Option String) (fs : FS) : FS :=
  ⟨afterDirs c fs,
   setFile fs.files (settings_path c) (serializeObj (settings_data env))⟩

/-- Event trace of a successful run. -/
def runTrace (c : String) (env : String → Option String) : List Ev :=
  [Ev.mkdirs (dirname (settings_path c)),
   Ev.fileWrite (settings_path c) (serializeObj (settings_data env))]

deriving instance DecidableEq for Except

/-! Concrete inputs used by the witness theorems. -/

/-- Environment with `GH_APP_ID` set to `"a"` and everything else unset. -/
def envA : String → Option String :=
  fun k => if k = "GH_APP_ID" then some "a" else none

/-- Environment agreeing with `envA` on the two read variables but differing
elsewhere. -/
def envB : String → Option String :=
  fun k => if k = "GH_APP_ID" then some "a"
           else if k = "OTHER" then some "x" else none

/-- Oracle under which every OS call succeeds. -/
def oracleOk : Oracle := ⟨true, true⟩

/-- Empty filesystem. -/
def fs0 : FS := ⟨[], []⟩

/-- The settings path for configuration root `"/j"`. -/
def spA : String := "/j/lab/user-settings/jupyter2repo/plugin.json"

/-- Its parent directory. -/
def dA : String := "/j/lab/user-settings/jupyter2repo"

/-- Directory chain created for root `"/j"`. -/
def dirsA : List String :=
  ["/j/lab/user-settings/jupyter2repo", "/j/lab/user-settings", "/j/lab", "/j", "/"]

/-- Serialized document for `envA`. -/
def contentA : String :=
  "\x7b\n  \"GH_APP_ID\": \"a\",\n  \"GH_APP_URL\": null\n\x7d"

/-- Filesystem after a successful run from `fs0` with root `"/j"` and `envA`. -/
def fsA : FS := ⟨dirsA, [(spA, contentA)]⟩

/-- Event trace of that run. -/
def trA : List Ev := [Ev.mkdirs dA, Ev.fileWrite spA contentA]

/-- Filesystem where the target file already exists with unrelated content. -/
def fsPrior : FS := ⟨dirsA, [(spA, "old content")]⟩

/-! String-level helper lemmas. -/

theorem data_append (a b : String) : (a ++ b).data = a.data ++ b.data := by
  cases a; cases b; rfl

theorem append_ne_empty_right (a s : String) (h : s.data ≠ []) : a ++ s ≠ "" := by
  intro he
  have hd : (a ++ s).data = [] := by rw [he]
  rw [data_append] at hd
  exact h (List.append_eq_nil.mp hd).2

theorem endsWithSlash_append_false (a s : String) (c : Char)
    (h : s.data.getLast? = some c) (hc : c ≠ '/') :
    endsWithSlash (a ++ s) = false := by
  unfold endsWithSlash
  rw [data_append, List.getLast?_append, h]
  simp [Option.or, hc]

theorem joinTwo_append_step (a s t : String) (c : Char)
    (hlast : s.data.getLast? = some c) (hc : c ≠ '/')
    (ht : startsWithSlash t = false) :
    joinTwo (a ++ s) t = a ++ s ++ "/" ++ t := by
  have hne : a ++ s ≠ "" := by
    apply append_ne_empty_right
    intro hnil
    rw [hnil] at hlast
    exact Option.noConfusion hlast
  have hend : endsWithSlash (a ++ s) = false := endsWithSlash_append_false a s c hlast hc
  simp [joinTwo, ht, hne, hend]

theorem append_merge (a b c x : String) (h : a ++ b = c) :
    a ++ (b ++ x) = c ++ x := by
  rw [← String.append_assoc, h]

theorem joinTwo_merge (a s t u : String) (c : Char)
    (hlast : s.data.getLast? = some c) (hc : c ≠ '/')
    (ht : startsWithSlash t = false) (hu : s ++ "/" ++ t = u) :
    joinTwo (a ++ s) t = a ++ u := by
  rw [joinTwo_append_step a s t c hlast hc ht,
      String.append_assoc a s "/", String.append_assoc a (s ++ "/") t, hu]

theorem join_chain (a : String) :
    joinTwo (joinTwo (joinTwo (a ++ "lab") "user-settings") "jupyter2repo")
      "plugin.json" = a ++ "lab/user-settings/jupyter2repo/plugin.json" := by
  rw [joinTwo_merge a "lab" "user-settings" "lab/user-settings" 'b'
        (by decide) (by decide) (by decide) (by decide),
      joinTwo_merge a "lab/user-settings" "jupyter2repo"
        "lab/user-settings/jupyter2repo" 's'
        (by decide) (by decide) (by decide) (by decide),
      joinTwo_merge a "lab/user-settings/jupyter2repo" "plugin.json"
        "lab/user-settings/jupyter2repo/plugin.json" 'o'
        (by decide) (by decide) (by decide) (by decide)]

/-- The specification's description of the output path: the configuration
root joined (by the POSIX join convention) with the fixed relative path
`lab/user-settings/jupyter2repo/plugin.json`. -/
def settingsPathSpec (root : String) : String :=
  joinTwo root "lab/user-settings/jupyter2repo/plugin.json"

/-- C2: For every configuration root directory returned by the host's
path-resolution call, the writer's output file path equals that root joined
with the fixed relative path `lab/user-settings/jupyter2repo/plugin.json`. -/
theorem C2_settings_path_is_root_join_relative (root : String) :
    settings_path root = settingsPathSpec root := by
  have hfold : settings_path root =
      joinTwo (joinTwo (joinTwo (joinTwo root "lab") "user-settings")
        "jupyter2repo") "plugin.json" := rfl
  rw [hfold]
  have hsl : startsWithSlash "lab" = false := by decide
  have hsr : startsWithSlash "lab/user-settings/jupyter2repo/plugin.json" = false := by
    decide
  by_cases h0 : root = ""
  · subst h0; decide
  · by_cases h1 : endsWithSlash root = true
    · have hj : joinTwo root "lab" = root ++ "lab" := by
        simp [joinTwo, hsl, h1]
      have hspec : settingsPathSpec root =
          root ++ "lab/user-settings/jupyter2repo/plugin.json" := by
        simp [settingsPathSpec, joinTwo, hsr, h1]
      rw [hj, join_chain, hspec]
    · have h1' : endsWithSlash root = false := by
        cases hb : endsWithSlash root
        · rfl
        · exact absurd hb h1
      have hj : joinTwo root "lab" = root ++ "/" ++ "lab" := by
        simp [joinTwo, hsl, h0, h1']
      have hspec : settingsPathSpec root =
          root ++ "/" ++ "lab/user-settings/jupyter2repo/plugin.json" := by
        simp [settingsPathSpec, joinTwo, hsr, h0, h1']
      rw [hj, join_chain (root ++ "/"), hspec]

/-! Serialization shape. -/

theorem serializeObj_two (k1 k2 : String) (v1 v2 : JVal) :
    serializeObj [(k1, v1), (k2, v2)] =
    "\x7b\n" ++ (("  " ++ jsonStringLit k1 ++ ": " ++ serializeJVal v1) ++ ",\n" ++
      ("  " ++ jsonStringLit k2 ++ ": " ++ serializeJVal v2)) ++ "\n\x7d" := rfl

theorem serialize_settings_template (env : String → Option String) :
    serializeObj (settings_data env) =
    "\x7b\n  \"GH_APP_ID\": " ++ serializeJVal (jOfOpt (env "GH_APP_ID")) ++
    ",\n  \"GH_APP_URL\": " ++ serializeJVal (jOfOpt (env "GH_APP_URL")) ++ "\n\x7d" := by
  rw [show settings_data env =
        [("GH_APP_ID", jOfOpt (env "GH_APP_ID")),
         ("GH_APP_URL", jOfOpt (env "GH_APP_URL"))] from rfl,
      serializeObj_two]
  generalize serializeJVal (jOfOpt (env "GH_APP_ID")) = s1
  generalize serializeJVal (jOfOpt (env "GH_APP_URL")) = s2
  simp only [String.append_assoc]
  rw [append_merge "\x7b\n" "  " "\x7b\n  " _ (by decide),
      append_merge "\x7b\n  " (jsonStringLit "GH_APP_ID") "\x7b\n  \"GH_APP_ID\"" _
        (by decide),
      append_merge "\x7b\n  \"GH_APP_ID\"" ": " "\x7b\n  \"GH_APP_ID\": " _ (by decide),
      append_merge ",\n" "  " ",\n  " _ (by decide),
      append_merge ",\n  " (jsonStringLit "GH_APP_URL") ",\n  \"GH_APP_URL\"" _
        (by decide),
      append_merge ",\n  \"GH_APP_URL\"" ": " ",\n  \"GH_APP_URL\": " _ (by decide)]

/-- C10: The serialized JSON document always lists the key `GH_APP_ID`
before the key `GH_APP_URL`: the dict is serialized in insertion order
without key sorting, so the output text is the fixed template below, in
which `"GH_APP_ID"` occurs textually before `"GH_APP_URL"`, for all
inputs. -/
theorem C10_key_order_insertion_fixed (env : String → Option String) :
    (settings_data env).map Prod.fst = ["GH_APP_ID", "GH_APP_URL"] ∧
    serializeObj (settings_data env) =
    "\x7b\n  \"GH_APP_ID\": " ++ serializeJVal (jOfOpt (env "GH_APP_ID")) ++
    ",\n  \"GH_APP_URL\": " ++ serializeJVal (jOfOpt (env "GH_APP_URL")) ++ "\n\x7d" :=
  ⟨rfl, serialize_settings_template env⟩

/-- C8: If an environment variable is set to the empty string, the value in
the settings document is the JSON string `""` and not `null`; `null` arises
exactly when the variable is unset, so set-to-empty and unset are
distinguishable in the output. -/
theorem C8_empty_string_not_null (env : String → Option String) :
    ((settings_data env).lookup "GH_APP_ID" = some JVal.null ↔
      env "GH_APP_ID" = none) ∧
    ((settings_data env).lookup "GH_APP_ID" = some (JVal.str "") ↔
      env "GH_APP_ID" = some "") ∧
    ((settings_data env).lookup "GH_APP_URL" = some JVal.null ↔
      env "GH_APP_URL" = none) ∧
    ((settings_data env).lookup "GH_APP_URL" = some (JVal.str "") ↔
      env "GH_APP_URL" = some "") ∧
    JVal.str "" ≠ JVal.null := by
  cases h1 : env "GH_APP_ID" <;> cases h2 : env "GH_APP_URL" <;>
    simp [settings_data, List.lookup, jOfOpt, h1, h2]

/-- C9: The writer is deterministic: two runs with the same configuration
root, the same starting filesystem and environments agreeing on
`GH_APP_ID` and `GH_APP_URL` produce identical results, in particular
identical bytes written to the target file. -/
theorem C9_deterministic (o : Oracle) (c : String)
    (env1 env2 : String → Option String) (fs : FS)
    (h1 : env1 "GH_APP_ID" = env2 "GH_APP_ID")
    (h2 : env1 "GH_APP_URL" = env2 "GH_APP_URL") :
    run o c env1 fs = run o c env2 fs ∧
    serializeObj (settings_data env1) = serializeObj (settings_data env2) := by
  have hd : settings_data env1 = settings_data env2 := by
    simp [settings_data, h1, h2]
  constructor
  · simp only [run, hd]
  · rw [hd]

/-! Run-level helper lemmas. -/

theorem makedirs_exist_ok_never_errors (p : String) (fs : FS) :
    makedirs true p fs =
      Except.ok { fs with dirs := insertAll fs.dirs (ancestors p) } := by
  simp [makedirs]

theorem run_ok_eq (o : Oracle) (c : String) (env : String → Option String)
    (fs : FS) (h1 : o.makedirsOk = true) (h2 : o.writeOk = true) :
    run o c env fs = Except.ok (runFS c env fs, runTrace c env) := by
  simp [run, makedirs, runFS, runTrace, afterDirs, h1, h2]

theorem run_err_makedirs (o : Oracle) (c : String) (env : String → Option String)
    (fs : FS) (h1 : o.makedirsOk = false) :
    run o c env fs = Except.error "OSError: makedirs" := by
  simp [run, h1]

theorem run_err_write (o : Oracle) (c : String) (env : String → Option String)
    (fs : FS) (h1 : o.makedirsOk = true) (h2 : o.writeOk = false) :
    run o c env fs = Except.error "OSError: open" := by
  simp [run, makedirs, h1, h2]

theorem run_inv (o : Oracle) (c : String) (env : String → Option String)
    (fs fsr : FS) (tr : List Ev) (h : run o c env fs = Except.ok (fsr, tr)) :
    o.makedirsOk = true ∧ o.writeOk = true ∧
    fsr = runFS c env fs ∧ tr = runTrace c env := by
  cases h1 : o.makedirsOk with
  | false => rw [run_err_makedirs o c env fs h1] at h; exact Except.noConfusion h
  | true =>
    cases h2 : o.writeOk with
    | false => rw [run_err_write o c env fs h1 h2] at h; exact Except.noConfusion h
    | true =>
      rw [run_ok_eq o c env fs h1 h2] at h
      simp only [Except.ok.injEq, Prod.mk.injEq] at h
      exact ⟨rfl, rfl, h.1.symm, h.2.symm⟩

theorem getFile_setFile (files : List (String × String)) (p c : String) :
    getFile (setFile files p c) p = some c := by
  induction files with
  | nil => simp [setFile, getFile]
  | cons hd tl ih =>
    obtain ⟨q, d⟩ := hd
    by_cases h : q = p
    · simp [setFile, getFile, h]
    · simp [setFile, getFile, h, ih]

theorem runFS_dirs (c : String) (env : String → Option String) (fs : FS) :
    (runFS c env fs).dirs = afterDirs c fs := by
  simp only [runFS]

theorem runFS_files (c : String) (env : String → Option String) (fs : FS) :
    (runFS c env fs).files =
      setFile fs.files (settings_path c) (serializeObj (settings_data env)) := by
  simp only [runFS]

theorem getFile_runFS (c : String) (env : String → Option String) (fs : FS) :
    getFile (runFS c env fs).files (settings_path c) =
      some (serializeObj (settings_data env)) := by
  rw [runFS_files]
  exact getFile_setFile fs.files _ _

theorem insertAll_cons (ds : List String) (y : String) (ys : List String) :
    insertAll ds (y :: ys) = insertAll (if y ∈ ds then ds else ds ++ [y]) ys := rfl

theorem mem_insertAll_left (ds xs : List String) (x : String) (h : x ∈ ds) :
    x ∈ insertAll ds xs := by
  induction xs generalizing ds with
  | nil => exact h
  | cons y ys ih =>
    rw [insertAll_cons]
    apply ih
    by_cases hy : y ∈ ds
    · simp only [hy, if_true]
      exact h
    · simp only [hy, if_false]
      exact List.mem_append_left _ h

theorem mem_insertAll_right (ds xs : List String) (x : String) (h : x ∈ xs) :
    x ∈ insertAll ds xs := by
  induction xs generalizing ds with
  | nil => cases h
  | cons y ys ih =>
    rw [insertAll_cons]
    rcases List.mem_cons.mp h with rfl | hmem
    · apply mem_insertAll_left
      by_cases hy : x ∈ ds
      · simp only [hy, if_true]
      · simp only [hy, if_false]
        exact List.mem_append_right _ (List.mem_singleton.mpr rfl)
    · exact ih _ hmem

theorem insertAll_of_subset (ds xs : List String) (h : ∀ x ∈ xs, x ∈ ds) :
    insertAll ds xs = ds := by
  induction xs with
  | nil => rfl
  | cons y ys ih =>
    rw [insertAll_cons]
    have hy : y ∈ ds := h y (List.mem_cons_self y ys)
    simp only [hy, if_true]
    exact ih fun x hx => h x (List.mem_cons_of_mem y hx)

theorem self_mem_ancestors (p : String) : p ∈ ancestors p := by
  rw [ancestors, ancestorsAux]
  exact List.mem_cons_self _ _

theorem mem_afterDirs_of_mem (c : String) (fs : FS) (x : String)
    (h : x ∈ fs.dirs) : x ∈ afterDirs c fs := by
  rw [afterDirs]
  exact mem_insertAll_left _ _ _ h

theorem mem_afterDirs_of_ancestor (c : String) (fs : FS) (x : String)
    (h : x ∈ ancestors (dirname (settings_path c))) : x ∈ afterDirs c fs := by
  rw [afterDirs]
  exact mem_insertAll_right _ _ _ h

theorem afterDirs_idem (c : String) (env : String → Option String) (fs : FS) :
    afterDirs c (runFS c env fs) = afterDirs c fs := by
  have h1 : afterDirs c (runFS c env fs) =
      insertAll (runFS c env fs).dirs (ancestors (dirname (settings_path c))) := by
    rw [afterDirs]
  rw [h1, runFS_dirs]
  exact insertAll_of_subset _ _ fun x hx => mem_afterDirs_of_ancestor c fs x hx

/-- C1: For every state of the two environment variables (set or unset),
the JSON document written to the target file is a mapping with exactly the
keys `GH_APP_ID` and `GH_APP_URL`, in which a set variable contributes its
string and an unset variable contributes `null`; the file content is the
serialization of exactly that document. -/
theorem C1_document_exactly_two_keys (o : Oracle) (c : String)
    (env : String → Option String) (fs fsr : FS) (tr : List Ev)
    (h : run o c env fs = Except.ok (fsr, tr)) :
    getFile fsr.files (settings_path c) = some (serializeObj (settings_data env)) ∧
    (settings_data env).map Prod.fst = ["GH_APP_ID", "GH_APP_URL"] ∧
    (∀ s, env "GH_APP_ID" = some s →
      (settings_data env).lookup "GH_APP_ID" = some (JVal.str s)) ∧
    (env "GH_APP_ID" = none →
      (settings_data env).lookup "GH_APP_ID" = some JVal.null) ∧
    (∀ s, env "GH_APP_URL" = some s →
      (settings_data env).lookup "GH_APP_URL" = some (JVal.str s)) ∧
    (env "GH_APP_URL" = none →
      (settings_data env).lookup "GH_APP_URL" = some JVal.null) := by
  obtain ⟨-, -, hfs, -⟩ := run_inv o c env fs fsr tr h
  refine ⟨?_, rfl, ?_, ?_, ?_, ?_⟩
  · rw [hfs]
    exact getFile_runFS c env fs
  · intro s hs; simp [settings_data, List.lookup, jOfOpt, hs]
  · intro hs; simp [settings_data, List.lookup, jOfOpt, hs]
  · intro s hs; simp [settings_data, List.lookup, jOfOpt, hs]
  · intro hs; simp [settings_data, List.lookup, jOfOpt, hs]

/-- C3: On every successful invocation the settings document is serialized
as pretty-printed JSON with two-space indentation (the explicit template
below) and the target file's content after the write is exactly that
serialization. -/
theorem C3_pretty_printed_exact_content (o : Oracle) (c : String)
    (env : String → Option String) (fs fsr : FS) (tr : List Ev)
    (h : run o c env fs = Except.ok (fsr, tr)) :
    getFile fsr.files (settings_path c) = some (serializeObj (settings_data env)) ∧
    serializeObj (settings_data env) =
      "\x7b\n  \"GH_APP_ID\": " ++ serializeJVal (jOfOpt (env "GH_APP_ID")) ++
      ",\n  \"GH_APP_URL\": " ++ serializeJVal (jOfOpt (env "GH_APP_URL")) ++
      "\n\x7d" := by
  obtain ⟨-, -, hfs, -⟩ := run_inv o c env fs fsr tr h
  constructor
  · rw [hfs]
    exact getFile_runFS c env fs
  · exact serialize_settings_template env

/-- C4: If the target file already exists with any prior content, the run
replaces it entirely: the new content is the fresh serialization of the
two-key document, and it is independent of the prior filesystem state — two
runs over filesystems holding arbitrary different prior contents write the
same bytes. -/
theorem C4_overwrite_full_no_merge (o o' : Oracle) (c : String)
    (env : String → Option String) (old : String) (fs fs' fsr fsr' : FS)
    (tr tr' : List Ev)
    (hprior : getFile fs.files (settings_path c) = some old)
    (h : run o c env fs = Except.ok (fsr, tr))
    (h' : run o' c env fs' = Except.ok (fsr', tr')) :
    getFile fsr.files (settings_path c) = some (serializeObj (settings_data env)) ∧
    getFile fsr.files (settings_path c) = getFile fsr'.files (settings_path c) := by
  obtain ⟨-, -, hfs, -⟩ := run_inv o c env fs fsr tr h
  obtain ⟨-, -, hfs', -⟩ := run_inv o' c env fs' fsr' tr' h'
  have g : getFile fsr.files (settings_path c) =
      some (serializeObj (settings_data env)) := by
    rw [hfs]; exact getFile_runFS c env fs
  have g' : getFile fsr'.files (settings_path c) =
      some (serializeObj (settings_data env)) := by
    rw [hfs']; exact getFile_runFS c env fs'
  exact ⟨g, g.trans g'.symm⟩

/-- C5: Directory creation is idempotent: when the target directory already
exists (and the OS calls themselves succeed), the run raises no error, all
previously existing directories remain, and a second consecutive run also
succeeds and creates no further directory (its directory set is unchanged). -/
theorem C5_makedirs_idempotent (o : Oracle) (c : String)
    (env env2 : String → Option String) (fs : FS)
    (h1 : o.makedirsOk = true) (h2 : o.writeOk = true)
    (hdir : dirname (settings_path c) ∈ fs.dirs) :
    run o c env fs = Except.ok (runFS c env fs, runTrace c env) ∧
    (∀ x ∈ fs.dirs, x ∈ (runFS c env fs).dirs) ∧
    run o c env2 (runFS c env fs) =
      Except.ok (runFS c env2 (runFS c env fs), runTrace c env2) ∧
    (runFS c env2 (runFS c env fs)).dirs = (runFS c env fs).dirs := by
  refine ⟨run_ok_eq o c env fs h1 h2, ?_,
          run_ok_eq o c env2 (runFS c env fs) h1 h2, ?_⟩
  · intro x hx
    rw [runFS_dirs]
    exact mem_afterDirs_of_mem c fs x hx
  · rw [runFS_dirs, runFS_dirs, afterDirs_idem]

/-- C6: The run raises an error if and only if an underlying filesystem
call (directory creation or the file write) fails; nothing is caught
locally, so every such failure propagates, and no error arises otherwise. -/
theorem C6_error_iff_os_call_fails (o : Oracle) (c : String)
    (env : String → Option String) (fs : FS) :
    (∃ e, run o c env fs = Except.error e) ↔
      (o.makedirsOk = false ∨ o.writeOk = false) := by
  cases h1 : o.makedirsOk with
  | false =>
    constructor
    · intro _
      exact Or.inl rfl
    · intro _
      exact ⟨_, run_err_makedirs o c env fs h1⟩
  | true =>
    cases h2 : o.writeOk with
    | false =>
      constructor
      · intro _
        exact Or.inr rfl
      · intro _
        exact ⟨_, run_err_write o c env fs h1 h2⟩
    | true =>
      constructor
      · rintro ⟨e, he⟩
        rw [run_ok_eq o c env fs h1 h2] at he
        exact Except.noConfusion he
      · rintro (hx | hx) <;> exact Bool.noConfusion hx

/-- C7: Whenever the run succeeds, the directory-creation event strictly
precedes the file-write event in the trace, the directory set is already at
its final value when the write is performed and contains every directory
along the target path, and in particular the parent of the target file
exists at write time. -/
theorem C7_mkdir_strictly_before_write (o : Oracle) (c : String)
    (env : String → Option String) (fs fsr : FS) (tr : List Ev)
    (h : run o c env fs = Except.ok (fsr, tr)) :
    tr = [Ev.mkdirs (dirname (settings_path c)),
          Ev.fileWrite (settings_path c) (serializeObj (settings_data env))] ∧
    fsr.dirs = afterDirs c fs ∧
    (∀ a ∈ ancestors (dirname (settings_path c)), a ∈ fsr.dirs) ∧
    dirname (settings_path c) ∈ fsr.dirs := by
  obtain ⟨-, -, hfs, htr⟩ := run_inv o c env fs fsr tr h
  have hdirs : fsr.dirs = afterDirs c fs := by
    rw [hfs, runFS_dirs]
  have hanc : ∀ a ∈ ancestors (dirname (settings_path c)), a ∈ fsr.dirs := by
    intro a ha
    rw [hdirs]
    exact mem_afterDirs_of_ancestor c fs a ha
  refine ⟨?_, hdirs, hanc, hanc _ (self_mem_ancestors _)⟩
  rw [htr, runTrace]

/-! Witnesses: the claim theorems applied at concrete inputs, with every
hypothesis discharged by evaluation. -/

/-- Witness for C1 at root `"/j"`, `GH_APP_ID = "a"`, `GH_APP_URL` unset. -/
theorem C1_document_exactly_two_keys_witness :
    getFile fsA.files (settings_path "/j") =
      some (serializeObj (settings_data envA)) ∧
    (settings_data envA).map Prod.fst = ["GH_APP_ID", "GH_APP_URL"] ∧
    (∀ s, envA "GH_APP_ID" = some s →
      (settings_data envA).lookup "GH_APP_ID" = some (JVal.str s)) ∧
    (envA "GH_APP_ID" = none →
      (settings_data envA).lookup "GH_APP_ID" = some JVal.null) ∧
    (∀ s, envA "GH_APP_URL" = some s →
      (settings_data envA).lookup "GH_APP_URL" = some (JVal.str s)) ∧
    (envA "GH_APP_URL" = none →
      (settings_data envA).lookup "GH_APP_URL" = some JVal.null) :=
  C1_document_exactly_two_keys oracleOk "/j" envA fs0 fsA trA (by decide)

/-- Witness for C3 at root `"/j"`, `GH_APP_ID = "a"`, `GH_APP_URL` unset. -/
theorem C3_pretty_printed_exact_content_witness :
    getFile fsA.files (settings_path "/j") =
      some (serializeObj (settings_data envA)) ∧
    serializeObj (settings_data envA) =
      "\x7b\n  \"GH_APP_ID\": " ++ serializeJVal (jOfOpt (envA "GH_APP_ID")) ++
      ",\n  \"GH_APP_URL\": " ++ serializeJVal (jOfOpt (envA "GH_APP_URL")) ++
      "\n\x7d" :=
  C3_pretty_printed_exact_content oracleOk "/j" envA fs0 fsA trA (by decide)

/-- Witness for C4: one run starts from a filesystem whose target file
holds `"old content"`, the other from the empty filesystem; both end with
the fresh serialization. -/
theorem C4_overwrite_full_no_merge_witness :
    getFile fsA.files (settings_path "/j") =
      some (serializeObj (settings_data envA)) ∧
    getFile fsA.files (settings_path "/j") =
      getFile fsA.files (settings_path "/j") :=
  C4_overwrite_full_no_merge oracleOk oracleOk "/j" envA "old content"
    fsPrior fs0 fsA fsA trA trA (by decide) (by decide) (by decide)

/-- Witness for C5: the starting filesystem `fsA` already contains the
target directory. -/
theorem C5_makedirs_idempotent_witness :
    run oracleOk "/j" envA fsA =
      Except.ok (runFS "/j" envA fsA, runTrace "/j" envA) ∧
    (∀ x ∈ fsA.dirs, x ∈ (runFS "/j" envA fsA).dirs) ∧
    run oracleOk "/j" envB (runFS "/j" envA fsA) =
      Except.ok (runFS "/j" envB (runFS "/j" envA fsA), runTrace "/j" envB) ∧
    (runFS "/j" envB (runFS "/j" envA fsA)).dirs = (runFS "/j" envA fsA).dirs :=
  C5_makedirs_idempotent oracleOk "/j" envA envB fsA
    (by decide) (by decide) (by decide)

/-- Witness for C7 at root `"/j"` from the empty filesystem. -/
theorem C7_mkdir_strictly_before_write_witness :
    trA = [Ev.mkdirs (dirname (settings_path "/j")),
           Ev.fileWrite (settings_path "/j") (serializeObj (settings_data envA))] ∧
    fsA.dirs = afterDirs "/j" fs0 ∧
    (∀ a ∈ ancestors (dirname (settings_path "/j")), a ∈ fsA.dirs) ∧
    dirname (settings_path "/j") ∈ fsA.dirs :=
  C7_mkdir_strictly_before_write oracleOk "/j" envA fs0 fsA trA (by decide)

/-- Witness for C9: `envA` and `envB` agree on the two read variables but
differ on another key; the runs coincide. -/
theorem C9_deterministic_witness :
    run oracleOk "/j" envA fs0 = run oracleOk "/j" envB fs0 ∧
    serializeObj (settings_data envA) = serializeObj (settings_data envB) :=
  C9_deterministic oracleOk "/j" envA envB fs0 (by decide) (by decide)
